import Mathlib

/-!
Shallow embedding of the geo-data migrator (src/main.go) and proofs about it.

The program copies country and city rows from an origin SQLite store into a
destination PostgreSQL store.  Database outcomes that depend on the external
stores (query success, transaction begin, statement prepare, per-row insert
success, commit success) are modelled as boolean oracles supplied to each
function; the data flow, control flow, logging and counting are transcribed
from the Go source.  Latitude and longitude are float64 in the source; the
program only copies them between stores and performs no arithmetic on them,
so they are modelled as integers.
-/

/-- Country record scanned from the origin store (src/main.go lines 17 to 24).
The ID field exists in the source struct but is never scanned or written. -/
structure Country where
  ID : Int
  Name : String
  ISOCode : String
  Flag : String
  Latitude : Int
  Longitude : Int
deriving DecidableEq

/-- City record scanned from the origin store (src/main.go lines 26 to 32).
The ID field exists in the source struct but is never scanned or written. -/
structure City where
  ID : Int
  Name : String
  CountryISOCode : String
  Latitude : Int
  Longitude : Int
deriving DecidableEq

/-- Row written by the prepared statement
INSERT INTO countries (name, iso_code, flag, lat, lng) VALUES ($1, $2, $3, $4, $5)
(src/main.go lines 79 to 80): the five inserted column values. -/
structure DestCountryRow where
  name : String
  iso_code : String
  flag : String
  lat : Int
  lng : Int
deriving DecidableEq

/-- Projection of the destination countries table used by the city insert
statement: the subquery SELECT id FROM countries WHERE iso_code = $2 reads
only the id and iso_code columns (src/main.go line 157). -/
structure CountryRef where
  id : Int
  iso_code : String
deriving DecidableEq

/-- Row written by the prepared statement
INSERT INTO cities (name, country_iso_code, lat, lng, country_id) VALUES
($1, $2, $3, $4, (SELECT id FROM countries WHERE iso_code = $2))
(src/main.go lines 155 to 157).  country_id is an Option because the scalar
subquery yields SQL NULL when no country row matches. -/
structure DestCityRow where
  name : String
  country_iso_code : String
  lat : Int
  lng : Int
  country_id : Option Int
deriving DecidableEq

/-- Observable log and print events emitted by the program, one constructor
per log.Printf or fmt.Printf site in src/main.go. -/
inductive LogEntry where
  | scanError
  | insertCountryError (name : String)
  | insertCityError (name : String)
  | beginTxError
  | prepareStmtError
  | commitError
  | workerFinished (count : Nat)
  | migratedCountries (count : Nat)
deriving DecidableEq

/-- Reasons for process termination through log.Fatal in src/main.go. -/
inductive FatalError where
  | dotenvLoadError
  | usageError
  | sqliteOpenError
  | pgConnectError
  | invalidSelectorError
  | queryError
  | beginTxError
  | prepareStmtError
  | commitError
deriving DecidableEq

/-- Outcome of a run: normal completion with a value, or process termination
with a non-zero exit through log.Fatal. -/
inductive ProcessOutcome (α : Type) where
  | ok (a : α)
  | fatal (e : FatalError)
deriving DecidableEq

/-- Semantics of the country insert statement (src/main.go lines 79 to 80 and
94 to 95): the row received by the destination is built from the scanned
fields in argument order, with no transformation. -/
def countryStmtRow (c : Country) : DestCountryRow :=
  { name := c.Name, iso_code := c.ISOCode, flag := c.Flag,
    lat := c.Latitude, lng := c.Longitude }

/-- Semantics of the scalar subquery SELECT id FROM countries WHERE
iso_code = $2 (src/main.go line 157): the id of the matching country row,
or none (SQL NULL) when no row matches. -/
def lookupCountryId (countries : List CountryRef) (iso : String) : Option Int :=
  (countries.find? (fun r => r.iso_code == iso)).map (fun r => r.id)

/-- Semantics of the city insert statement (src/main.go lines 155 to 157 and
165 to 166): the row received by the destination, with country_id resolved
by the same-statement lookup. -/
def cityStmtRow (countries : List CountryRef) (c : City) : DestCityRow :=
  { name := c.Name, country_iso_code := c.CountryISOCode,
    lat := c.Latitude, lng := c.Longitude,
    country_id := lookupCountryId countries c.CountryISOCode }

/-- Oracles for the external database outcomes in migrateCountries. -/
structure CountryEnv where
  queryOk : Bool
  beginOk : Bool
  prepareOk : Bool
  execOk : Country → Bool
  commitOk : Bool

/-- Result of the scan-and-insert loop of migrateCountries (src/main.go
lines 85 to 101): success count, rows received by the destination,
chronological log entries. -/
structure CountryLoopResult where
  count : Nat
  rows : List DestCountryRow
  logs : List LogEntry
deriving DecidableEq

/-- Scan-and-insert loop of migrateCountries (src/main.go lines 85 to 101).
An origin row is an Option Country: none models a rows.Scan error (the loop
logs and continues); some c is a successfully scanned record, inserted when
the execution oracle allows it, otherwise logged with its name and skipped
without incrementing the count. -/
def countryLoop (execOk : Country → Bool) : List (Option Country) → CountryLoopResult
  | [] => { count := 0, rows := [], logs := [] }
  | none :: rest =>
    let r := countryLoop execOk rest
    { count := r.count, rows := r.rows, logs := LogEntry.scanError :: r.logs }
  | some c :: rest =>
    let r := countryLoop execOk rest
    if execOk c then
      { count := r.count + 1, rows := countryStmtRow c :: r.rows, logs := r.logs }
    else
      { count := r.count, rows := r.rows,
        logs := LogEntry.insertCountryError c.Name :: r.logs }

/-- Result of a completed migrateCountries run: the final count, the rows
received by the destination, and the log entries followed by the printed
count message (src/main.go line 108). -/
structure CountryRunResult where
  count : Nat
  rows : List DestCountryRow
  logs : List LogEntry
deriving DecidableEq

/-- The sequential country migration (src/main.go lines 66 to 109).  Query
failure, transaction begin failure, prepare failure and commit failure each
hit log.Fatal, terminating the process; only a fully successful run reaches
the printed count message, modelled as the trailing migratedCountries log
entry. -/
def migrateCountries (env : CountryEnv) (origin : List (Option Country)) :
    ProcessOutcome CountryRunResult :=
  if env.queryOk = false then ProcessOutcome.fatal FatalError.queryError
  else if env.beginOk = false then ProcessOutcome.fatal FatalError.beginTxError
  else if env.prepareOk = false then ProcessOutcome.fatal FatalError.prepareStmtError
  else
    let r := countryLoop env.execOk origin
    if env.commitOk = false then ProcessOutcome.fatal FatalError.commitError
    else ProcessOutcome.ok
      { count := r.count, rows := r.rows,
        logs := r.logs ++ [LogEntry.migratedCountries r.count] }

/-- Producer goroutine of migrateCitiesConcurrently (src/main.go lines 127
to 138): scans origin rows in order, logging and skipping rows whose scan
fails (none) and pushing successfully scanned cities onto the channel.
Returns the pushed cities in order together with the producer's log
entries. -/
def produceCities : List (Option City) → List City × List LogEntry
  | [] => ([], [])
  | none :: rest =>
    let r := produceCities rest
    (r.1, LogEntry.scanError :: r.2)
  | some c :: rest =>
    let r := produceCities rest
    (c :: r.1, r.2)

/-- Oracles for the external database outcomes in a single worker. -/
structure WorkerEnv where
  beginOk : Bool
  prepareOk : Bool
  execOk : City → Bool
  commitOk : Bool

/-- Result of a worker's consume loop (src/main.go lines 163 to 172):
success count, rows received by the destination, chronological log entries,
and the list of records for which an insert was executed (each exactly
once, in order). -/
structure CityLoopResult where
  count : Nat
  rows : List DestCityRow
  logs : List LogEntry
  attempts : List City
deriving DecidableEq

/-- Consume loop of a worker (src/main.go lines 163 to 172): for each city
received from the channel, execute the insert once; on failure log the
error with the city's name and continue without incrementing the count; on
success count it and the destination receives the statement row. -/
def processCities (countries : List CountryRef) (execOk : City → Bool) :
    List City → CityLoopResult
  | [] => { count := 0, rows := [], logs := [], attempts := [] }
  | c :: rest =>
    let r := processCities countries execOk rest
    if execOk c then
      { count := r.count + 1, rows := cityStmtRow countries c :: r.rows,
        logs := r.logs, attempts := c :: r.attempts }
    else
      { count := r.count, rows := r.rows,
        logs := LogEntry.insertCityError c.Name :: r.logs, attempts := c :: r.attempts }

/-- Terminal state of one worker (src/main.go lines 144 to 181). -/
inductive WorkerResult where
  | beginFailed
  | prepareFailed
  | commitFailed (count : Nat)
  | committed (count : Nat) (rows : List DestCityRow)
deriving DecidableEq

/-- One worker (src/main.go lines 144 to 181): begin a transaction, prepare
the city insert statement, consume the received cities, then commit.  A
begin, prepare or commit failure is logged and the worker returns early; on
commit failure the deferred rollback discards the rows, so only the
committed constructor carries destination rows.  The worker never calls
log.Fatal. -/
def worker (countries : List CountryRef) (env : WorkerEnv) (cities : List City) :
    WorkerResult × List LogEntry :=
  if env.beginOk = false then (WorkerResult.beginFailed, [LogEntry.beginTxError])
  else if env.prepareOk = false then (WorkerResult.prepareFailed, [LogEntry.prepareStmtError])
  else
    let r := processCities countries env.execOk cities
    if env.commitOk = false then
      (WorkerResult.commitFailed r.count, r.logs ++ [LogEntry.commitError])
    else
      (WorkerResult.committed r.count r.rows, r.logs ++ [LogEntry.workerFinished r.count])

/-- Rows a worker contributed to the destination: only a committed
transaction makes its rows durable (src/main.go lines 153 and 174). -/
def workerDestRows : WorkerResult → List DestCityRow
  | WorkerResult.committed _ rows => rows
  | _ => []

/-- Worker pool size chosen by the coordinator:
numWorkers := runtime.NumCPU() * 2 (src/main.go line 118). -/
def numWorkers (numCPU : Nat) : Nat := numCPU * 2

/-- Capacity of the bounded relay between producer and workers:
cityChannel := make(chan City, numWorkers) (src/main.go line 119). -/
def cityChannelCapacity (numCPU : Nat) : Nat := numWorkers numCPU

/-- Nondeterministic distribution of channel sends to workers: the record
at stream position i is received by worker assign i.  A worker receives its
records as the in-order subsequence of the stream at its positions; the
pairs keep the stream position. -/
def receivedPairs (n : Nat) (assign : Nat → Fin n) (w : Fin n) (cities : List City) :
    List (Nat × City) :=
  cities.enum.filter (fun p => decide (assign p.1 = w))

/-- Records received by worker w, in stream order. -/
def received (n : Nat) (assign : Nat → Fin n) (w : Fin n) (cities : List City) :
    List City :=
  (receivedPairs n assign w cities).map Prod.snd

/-- Run of one worker inside the concurrent city migration: worker w runs
on its own oracle environment and its received share of the stream. -/
def runWorker (countries : List CountryRef) (n : Nat) (envs : Fin n → WorkerEnv)
    (assign : Nat → Fin n) (cities : List City) (w : Fin n) :
    WorkerResult × List LogEntry :=
  worker countries (envs w) (received n assign w cities)

/-- Observable coordinator events of one city-migration run: each worker
returning (wg.Done at src/main.go line 145) and the completion notice
printed after wg.Wait (src/main.go lines 140 to 141). -/
inductive Event where
  | workerReturned (w : Nat)
  | completionPrinted
deriving DecidableEq

/-- Result of a completed migrateCitiesConcurrently run: per-worker results
in worker order, the producer's log entries, and the event trace. -/
structure CityRunResult where
  results : List (WorkerResult × List LogEntry)
  producerLogs : List LogEntry
  trace : List Event

/-- The concurrent city migration (src/main.go lines 111 to 142).  Origin
query failure hits log.Fatal; otherwise the producer scans and distributes
the stream, each of the n workers processes its share, and the coordinator
waits on the WaitGroup before printing the completion notice.  The
nondeterministic order in which workers return is the order parameter; the
completion event follows every worker-return event. -/
def migrateCitiesConcurrently (queryOk : Bool) (countries : List CountryRef) (n : Nat)
    (envs : Fin n → WorkerEnv) (origin : List (Option City)) (assign : Nat → Fin n)
    (order : List (Fin n)) : ProcessOutcome CityRunResult :=
  if queryOk = false then ProcessOutcome.fatal FatalError.queryError
  else
    let p := produceCities origin
    ProcessOutcome.ok
      { results := (List.finRange n).map (runWorker countries n envs assign p.1),
        producerLogs := p.2,
        trace := order.map (fun w => Event.workerReturned w.val) ++ [Event.completionPrinted] }

/-- Sum over the worker pool of each worker's success count on its received
share of the stream. -/
def totalWorkerCount (countries : List CountryRef) (n : Nat) (execOk : City → Bool)
    (assign : Nat → Fin n) (cities : List City) : Nat :=
  ((List.finRange n).map
    (fun w => (processCities countries execOk (received n assign w cities)).count)).sum

/-- Oracles for the setup steps of main (src/main.go lines 34 to 54). -/
structure MainEnv where
  dotenvOk : Bool
  sqliteOk : Bool
  pgOk : Bool

/-- Migration selected by the command-line dispatch. -/
inductive Selected where
  | countryRun
  | cityRun
deriving DecidableEq

/-- Entry dispatch of main (src/main.go lines 34 to 64), in source order:
load .env, check the argument count, open the SQLite origin, connect the
PostgreSQL destination, then switch on the selector argument.  args models
os.Args, so args gets index 1 as the selector; every fatal branch runs no
migration, and only the ok branches dispatch one. -/
def mainRun (env : MainEnv) (args : List String) : ProcessOutcome Selected :=
  if env.dotenvOk = false then ProcessOutcome.fatal FatalError.dotenvLoadError
  else if args.length ≠ 2 then ProcessOutcome.fatal FatalError.usageError
  else if env.sqliteOk = false then ProcessOutcome.fatal FatalError.sqliteOpenError
  else if env.pgOk = false then ProcessOutcome.fatal FatalError.pgConnectError
  else
    match args[1]? with
    | some s =>
      if s = "country" then ProcessOutcome.ok Selected.countryRun
      else if s = "city" then ProcessOutcome.ok Selected.cityRun
      else ProcessOutcome.fatal FatalError.invalidSelectorError
    | none => ProcessOutcome.fatal FatalError.invalidSelectorError

/-!
Helper lemmas about the loops, the distribution of the stream to workers,
and the success counts.
-/

theorem processCities_count (t : List CountryRef) (e : City → Bool) (l : List City) :
    (processCities t e l).count = l.countP e := by
  induction l with
  | nil => rfl
  | cons c cs ih =>
    cases hc : e c with
    | true => simp [processCities, hc, List.countP_cons, ih]
    | false => simp [processCities, hc, List.countP_cons, ih]

theorem processCities_rows (t : List CountryRef) (e : City → Bool) (l : List City) :
    (processCities t e l).rows = (l.filter e).map (cityStmtRow t) := by
  induction l with
  | nil => rfl
  | cons c cs ih =>
    cases hc : e c with
    | true => simp [processCities, hc, List.filter_cons, ih]
    | false => simp [processCities, hc, List.filter_cons, ih]

theorem processCities_attempts (t : List CountryRef) (e : City → Bool) (l : List City) :
    (processCities t e l).attempts = l := by
  induction l with
  | nil => rfl
  | cons c cs ih =>
    cases hc : e c with
    | true => simp [processCities, hc, ih]
    | false => simp [processCities, hc, ih]

theorem countryLoop_count_append (e : Country → Bool) (l₁ l₂ : List (Option Country)) :
    (countryLoop e (l₁ ++ l₂)).count = (countryLoop e l₁).count + (countryLoop e l₂).count := by
  induction l₁ with
  | nil => simp [countryLoop]
  | cons o rest ih =>
    cases o with
    | none => simpa [countryLoop] using ih
    | some c =>
      cases hc : e c with
      | true => simp [countryLoop, hc, ih]; omega
      | false => simpa [countryLoop, hc] using ih

theorem countryLoop_rows_append (e : Country → Bool) (l₁ l₂ : List (Option Country)) :
    (countryLoop e (l₁ ++ l₂)).rows = (countryLoop e l₁).rows ++ (countryLoop e l₂).rows := by
  induction l₁ with
  | nil => simp [countryLoop]
  | cons o rest ih =>
    cases o with
    | none => simpa [countryLoop] using ih
    | some c =>
      cases hc : e c with
      | true => simp [countryLoop, hc, ih]
      | false => simpa [countryLoop, hc] using ih

theorem countryLoop_logs_append (e : Country → Bool) (l₁ l₂ : List (Option Country)) :
    (countryLoop e (l₁ ++ l₂)).logs = (countryLoop e l₁).logs ++ (countryLoop e l₂).logs := by
  induction l₁ with
  | nil => simp [countryLoop]
  | cons o rest ih =>
    cases o with
    | none => simp [countryLoop, ih]
    | some c =>
      cases hc : e c with
      | true => simpa [countryLoop, hc] using ih
      | false => simp [countryLoop, hc, ih]

theorem countryLoop_rows_eq (e : Country → Bool) (origin : List (Option Country)) :
    (countryLoop e origin).rows = ((origin.filterMap id).filter e).map countryStmtRow := by
  induction origin with
  | nil => rfl
  | cons o rest ih =>
    cases o with
    | none => simpa [countryLoop, List.filterMap_cons] using ih
    | some c =>
      cases hc : e c with
      | true => simp [countryLoop, hc, List.filterMap_cons, List.filter_cons, ih]
      | false => simp [countryLoop, hc, List.filterMap_cons, List.filter_cons, ih]

theorem produceCities_fst_append (l₁ l₂ : List (Option City)) :
    (produceCities (l₁ ++ l₂)).1 = (produceCities l₁).1 ++ (produceCities l₂).1 := by
  induction l₁ with
  | nil => simp [produceCities]
  | cons o rest ih =>
    cases o with
    | none => simpa [produceCities] using ih
    | some c => simp [produceCities, ih]

theorem produceCities_snd_append (l₁ l₂ : List (Option City)) :
    (produceCities (l₁ ++ l₂)).2 = (produceCities l₁).2 ++ (produceCities l₂).2 := by
  induction l₁ with
  | nil => simp [produceCities]
  | cons o rest ih =>
    cases o with
    | none => simp [produceCities, ih]
    | some c => simpa [produceCities] using ih

theorem sum_map_indicator_of_not_mem {α : Type} [DecidableEq α] (v : α) :
    ∀ L : List α, v ∉ L → ((L.map (fun w => if v = w then (1 : Nat) else 0)).sum = 0) := by
  intro L
  induction L with
  | nil => intro _; rfl
  | cons a L ih =>
    intro hv
    have ha : v ≠ a := fun h => hv (h ▸ List.mem_cons_self a L)
    have hL : v ∉ L := fun h => hv (List.mem_cons_of_mem a h)
    simp [ha, ih hL]

theorem sum_map_indicator_of_nodup {α : Type} [DecidableEq α] (v : α) :
    ∀ L : List α, L.Nodup → v ∈ L →
      ((L.map (fun w => if v = w then (1 : Nat) else 0)).sum = 1) := by
  intro L
  induction L with
  | nil => intro _ h; cases h
  | cons a L ih =>
    intro hnd hv
    rcases List.mem_cons.mp hv with h | h
    · subst h
      have : v ∉ L := (List.nodup_cons.mp hnd).1
      simp [sum_map_indicator_of_not_mem v L this]
    · have ha : v ≠ a := by
        intro he
        exact (List.nodup_cons.mp hnd).1 (he ▸ h)
      simp [ha, ih (List.nodup_cons.mp hnd).2 h]

theorem sum_countP_fiber {α : Type} (n : Nat) (key : α → Fin n) (q : α → Bool)
    (l : List α) :
    ((List.finRange n).map (fun w => l.countP (fun a => q a && decide (key a = w)))).sum
      = l.countP q := by
  induction l with
  | nil => simp [List.countP_nil]
  | cons a l ih =>
    have hstep : ((List.finRange n).map
        (fun w => List.countP (fun x => q x && decide (key x = w)) (a :: l))).sum
        = ((List.finRange n).map
            (fun w => List.countP (fun x => q x && decide (key x = w)) l
              + if q a && decide (key a = w) then 1 else 0)).sum := by
      simp [List.countP_cons]
    rw [hstep, List.sum_map_add, ih]
    have hind : ((List.finRange n).map
        (fun w => if q a && decide (key a = w) then (1 : Nat) else 0)).sum
        = if q a then 1 else 0 := by
      cases hq : q a with
      | false => simp [hq]
      | true =>
        simp only [hq, Bool.true_and]
        have := sum_map_indicator_of_nodup (key a) (List.finRange n)
          (List.nodup_finRange n) (List.mem_finRange (key a))
        simpa [decide_eq_true_eq] using this
    rw [hind, List.countP_cons]

theorem countP_enum (e : City → Bool) (l : List City) :
    l.enum.countP (fun p => e p.2) = l.countP e := by
  conv_rhs => rw [← List.enum_map_snd l]
  rw [List.countP_map]
  rfl

theorem received_count (t : List CountryRef) (n : Nat) (e : City → Bool)
    (assign : Nat → Fin n) (cities : List City) (w : Fin n) :
    (processCities t e (received n assign w cities)).count
      = cities.enum.countP (fun p => e p.2 && decide (assign p.1 = w)) := by
  rw [processCities_count]
  unfold received receivedPairs
  rw [List.countP_map, List.countP_filter]
  rfl

theorem totalWorkerCount_eq_countP (t : List CountryRef) (n : Nat) (e : City → Bool)
    (assign : Nat → Fin n) (cities : List City) :
    totalWorkerCount t n e assign cities = cities.countP e := by
  unfold totalWorkerCount
  simp only [received_count]
  rw [← countP_enum e cities]
  exact sum_countP_fiber n (fun p => assign p.1) (fun p => e p.2) cities.enum

theorem receivedPairs_mem_iff (n : Nat) (assign : Nat → Fin n) (cities : List City)
    (i : Nat) (h : i < cities.length) (w : Fin n) :
    (i, cities.get ⟨i, h⟩) ∈ receivedPairs n assign w cities ↔ assign i = w := by
  unfold receivedPairs
  rw [List.mem_filter]
  constructor
  · rintro ⟨-, hw⟩
    exact of_decide_eq_true hw
  · intro hw
    refine ⟨?_, by simp [hw]⟩
    rw [List.mem_enum_iff_getElem?]
    simp [List.getElem?_eq_getElem h]

/-!
Claim theorems.
-/

/-- C1: For every well-formed origin row that is successfully inserted during
a run, the destination receives exactly one corresponding row whose columns
(name, iso_code, flag, lat, lng for countries; name, country_iso_code, lat,
lng for cities) equal the fields scanned from the origin row, with no
transformation applied: the destination rows are exactly the image, one row
per record, of the successfully inserted records under the insert
statements, and each statement copies every scanned field unchanged. -/
theorem C1_mapping_correctness :
    (∀ (execOk : Country → Bool) (origin : List (Option Country)),
      (countryLoop execOk origin).rows
        = ((origin.filterMap id).filter execOk).map countryStmtRow)
    ∧ (∀ c : Country,
      (countryStmtRow c).name = c.Name ∧ (countryStmtRow c).iso_code = c.ISOCode
        ∧ (countryStmtRow c).flag = c.Flag ∧ (countryStmtRow c).lat = c.Latitude
        ∧ (countryStmtRow c).lng = c.Longitude)
    ∧ (∀ (t : List CountryRef) (execOk : City → Bool) (cities : List City),
      (processCities t execOk cities).rows = (cities.filter execOk).map (cityStmtRow t))
    ∧ (∀ (t : List CountryRef) (c : City),
      (cityStmtRow t c).name = c.Name
        ∧ (cityStmtRow t c).country_iso_code = c.CountryISOCode
        ∧ (cityStmtRow t c).lat = c.Latitude ∧ (cityStmtRow t c).lng = c.Longitude) :=
  ⟨countryLoop_rows_eq, fun _ => ⟨rfl, rfl, rfl, rfl, rfl⟩, processCities_rows,
    fun _ _ => ⟨rfl, rfl, rfl, rfl⟩⟩

/-- C3 counterexample: the claim that the relay capacity is 2 times the
worker-pool size fails on the code: with one CPU the pool has numWorkers 1
= 2 workers and the channel capacity is also 2, not 2 * 2 = 4. -/
theorem C3_counterexample : ¬ cityChannelCapacity 1 = 2 * numWorkers 1 := by decide

/-- C3 amended: the bounded relay capacity equals the worker-pool size
numWorkers itself (which is 2 times NumCPU), not 2 times the pool size. -/
theorem C3_relay_capacity (numCPU : Nat) :
    cityChannelCapacity numCPU = numWorkers numCPU ∧ numWorkers numCPU = 2 * numCPU := by
  unfold cityChannelCapacity numWorkers
  omega

/-- C6: For every origin row whose column decode (scan) fails, the record
source logs the issue and skips that row, continuing with the remaining
rows: removing the malformed row changes neither the produced city stream
nor the country count and destination rows; the only difference is one
scanError log entry in place, so a malformed row never ends the stream and
contributes nothing to the destination. -/
theorem C6_skip_on_decode_failure :
    (∀ pre post : List (Option City),
      (produceCities (pre ++ none :: post)).1 = (produceCities (pre ++ post)).1
      ∧ (produceCities (pre ++ none :: post)).2
          = (produceCities pre).2 ++ LogEntry.scanError :: (produceCities post).2)
    ∧ (∀ (execOk : Country → Bool) (pre post : List (Option Country)),
      (countryLoop execOk (pre ++ none :: post)).count
          = (countryLoop execOk (pre ++ post)).count
      ∧ (countryLoop execOk (pre ++ none :: post)).rows
          = (countryLoop execOk (pre ++ post)).rows
      ∧ (countryLoop execOk (pre ++ none :: post)).logs
          = (countryLoop execOk pre).logs
              ++ LogEntry.scanError :: (countryLoop execOk post).logs) := by
  constructor
  · intro pre post
    constructor
    · rw [produceCities_fst_append, produceCities_fst_append]
      simp [produceCities]
    · rw [produceCities_snd_append]
      simp [produceCities]
  · intro e pre post
    refine ⟨?_, ?_, ?_⟩
    · rw [countryLoop_count_append, countryLoop_count_append]
      simp [countryLoop]
    · rw [countryLoop_rows_append, countryLoop_rows_append]
      simp [countryLoop]
    · rw [countryLoop_logs_append]
      simp [countryLoop]

/-- C4: For every record whose insert execution fails inside a worker, the
worker logs the error with the record's name, does not increment its
success counter, contributes no destination row for it, and continues with
the next record exactly as if the record were processed alone at the front;
every record is attempted exactly once in arrival order (no retry); and a
worker whose transaction and commit succeed still commits despite such
failures (a failing row never aborts the transaction). -/
theorem C4_per_record_failure_isolation (t : List CountryRef) (execOk : City → Bool)
    (c : City) (cs : List City) (hfail : execOk c = false) :
    (processCities t execOk (c :: cs)).count = (processCities t execOk cs).count
    ∧ (processCities t execOk (c :: cs)).rows = (processCities t execOk cs).rows
    ∧ (processCities t execOk (c :: cs)).logs
        = LogEntry.insertCityError c.Name :: (processCities t execOk cs).logs
    ∧ (∀ l : List City, (processCities t execOk l).attempts = l)
    ∧ worker t { beginOk := true, prepareOk := true, execOk := execOk, commitOk := true }
        (c :: cs)
      = (WorkerResult.committed (processCities t execOk (c :: cs)).count
          (processCities t execOk (c :: cs)).rows,
        (processCities t execOk (c :: cs)).logs
          ++ [LogEntry.workerFinished (processCities t execOk (c :: cs)).count]) := by
  refine ⟨?_, ?_, ?_, processCities_attempts t execOk, ?_⟩ <;>
    simp [processCities, worker, hfail]

/-- C4 witness: a record rejected by the execution oracle adds no success
count. -/
theorem C4_witness :
    ((fun c : City => c.CountryISOCode == "US") (City.mk 1 "Badtown" "XX" 10 20) = false)
    ∧ (processCities [] (fun c : City => c.CountryISOCode == "US")
        [City.mk 1 "Badtown" "XX" 10 20]).count
      = (processCities [] (fun c : City => c.CountryISOCode == "US") []).count :=
  ⟨by decide,
    (C4_per_record_failure_isolation [] (fun c : City => c.CountryISOCode == "US")
      (City.mk 1 "Badtown" "XX" 10 20) [] (by decide)).1⟩

/-- C5: A failure of a worker to start its transaction, to prepare its
statement, or to commit causes only that worker to stop early after
logging, with no destination rows surviving from it; a sibling worker's
result depends only on its own environment and received records, so it is
unchanged when another worker's environment changes; and the coordinator
run still returns normally, never through log.Fatal. -/
theorem C5_worker_failure_containment :
    (∀ (t : List CountryRef) (env : WorkerEnv) (l : List City), env.beginOk = false →
      worker t env l = (WorkerResult.beginFailed, [LogEntry.beginTxError])
        ∧ workerDestRows (worker t env l).1 = [])
    ∧ (∀ (t : List CountryRef) (env : WorkerEnv) (l : List City),
        env.beginOk = true → env.prepareOk = false →
      worker t env l = (WorkerResult.prepareFailed, [LogEntry.prepareStmtError])
        ∧ workerDestRows (worker t env l).1 = [])
    ∧ (∀ (t : List CountryRef) (env : WorkerEnv) (l : List City),
        env.beginOk = true → env.prepareOk = true → env.commitOk = false →
      worker t env l = (WorkerResult.commitFailed (processCities t env.execOk l).count,
          (processCities t env.execOk l).logs ++ [LogEntry.commitError])
        ∧ workerDestRows (worker t env l).1 = [])
    ∧ (∀ (t : List CountryRef) (n : Nat) (envs₁ envs₂ : Fin n → WorkerEnv)
        (assign : Nat → Fin n) (cities : List City) (u : Fin n),
        (∀ v : Fin n, v ≠ u → envs₁ v = envs₂ v) →
        ∀ w : Fin n, w ≠ u →
          runWorker t n envs₁ assign cities w = runWorker t n envs₂ assign cities w)
    ∧ (∀ (t : List CountryRef) (n : Nat) (envs : Fin n → WorkerEnv)
        (origin : List (Option City)) (assign : Nat → Fin n) (order : List (Fin n)),
        ∃ r, migrateCitiesConcurrently true t n envs origin assign order
          = ProcessOutcome.ok r) := by
  refine ⟨?_, ?_, ?_, ?_, ?_⟩
  · intro t env l hb
    constructor <;> simp [worker, hb, workerDestRows]
  · intro t env l hb hp
    constructor <;> simp [worker, hb, hp, workerDestRows]
  · intro t env l hb hp hc
    constructor <;> simp [worker, hb, hp, hc, workerDestRows]
  · intro t n envs₁ envs₂ assign cities u hagree w hw
    unfold runWorker
    rw [hagree w hw]
  · intro t n envs origin assign order
    exact ⟨_, rfl⟩

/-- C5 witness: a worker whose transaction fails to start returns early with
only the begin-error log. -/
theorem C5_witness :
    ((WorkerEnv.mk false true (fun _ => true) true).beginOk = false)
    ∧ worker [] (WorkerEnv.mk false true (fun _ => true) true) []
        = (WorkerResult.beginFailed, [LogEntry.beginTxError]) :=
  ⟨rfl,
    (C5_worker_failure_containment.1 [] (WorkerEnv.mk false true (fun _ => true) true)
      [] rfl).1⟩

/-- C8: For every city whose country ISO code has no matching country row in
the destination at insert time, the same-statement lookup yields none (SQL
NULL) for the country_id column while the other columns receive the scanned
fields unchanged, and the row is still inserted, not rejected: a worker
whose transaction succeeds commits it. -/
theorem C8_missing_country_null_fk (t : List CountryRef) (c : City)
    (habsent : ∀ r ∈ t, r.iso_code ≠ c.CountryISOCode) :
    cityStmtRow t c
      = { name := c.Name, country_iso_code := c.CountryISOCode,
          lat := c.Latitude, lng := c.Longitude, country_id := none }
    ∧ worker t { beginOk := true, prepareOk := true, execOk := (fun _ => true),
                 commitOk := true } [c]
      = (WorkerResult.committed 1 [cityStmtRow t c], [LogEntry.workerFinished 1]) := by
  have hfind : List.find? (fun r => r.iso_code == c.CountryISOCode) t = none :=
    List.find?_eq_none.mpr (fun x hx => by simpa using habsent x hx)
  constructor
  · simp [cityStmtRow, lookupCountryId, hfind]
  · simp [worker, processCities]

/-- C8 witness: a city whose code matches no destination country is inserted
with a null country reference. -/
theorem C8_witness :
    (∀ r ∈ [CountryRef.mk 7 "US"], r.iso_code ≠ "XX")
    ∧ cityStmtRow [CountryRef.mk 7 "US"] (City.mk 1 "Ghosttown" "XX" 10 20)
      = { name := "Ghosttown", country_iso_code := "XX", lat := 10, lng := 20,
          country_id := none } :=
  ⟨by decide,
    (C8_missing_country_null_fk [CountryRef.mk 7 "US"] (City.mk 1 "Ghosttown" "XX" 10 20)
      (by decide)).1⟩

/-- C10: In the sequential country migration, a failure to query the origin,
begin the transaction, prepare the statement, or commit hits log.Fatal:
the run's outcome is fatal (non-zero exit), and the count message, which
only the ok outcome carries, is never printed.  By contrast, in the city
path the transaction-lifecycle failures happen inside a worker, which
merely returns early, and the coordinator run still ends in the ok
outcome. -/
theorem C10_country_setup_failures_fatal :
    (∀ (env : CountryEnv) (origin : List (Option Country)), env.queryOk = false →
      migrateCountries env origin = ProcessOutcome.fatal FatalError.queryError)
    ∧ (∀ (env : CountryEnv) (origin : List (Option Country)),
        env.queryOk = true → env.beginOk = false →
      migrateCountries env origin = ProcessOutcome.fatal FatalError.beginTxError)
    ∧ (∀ (env : CountryEnv) (origin : List (Option Country)),
        env.queryOk = true → env.beginOk = true → env.prepareOk = false →
      migrateCountries env origin = ProcessOutcome.fatal FatalError.prepareStmtError)
    ∧ (∀ (env : CountryEnv) (origin : List (Option Country)),
        env.queryOk = true → env.beginOk = true → env.prepareOk = true →
        env.commitOk = false →
      migrateCountries env origin = ProcessOutcome.fatal FatalError.commitError)
    ∧ (∀ (t : List CountryRef) (env : WorkerEnv) (l : List City), env.beginOk = false →
      worker t env l = (WorkerResult.beginFailed, [LogEntry.beginTxError]))
    ∧ (∀ (t : List CountryRef) (n : Nat) (envs : Fin n → WorkerEnv)
        (origin : List (Option City)) (assign : Nat → Fin n) (order : List (Fin n)),
        ∃ r, migrateCitiesConcurrently true t n envs origin assign order
          = ProcessOutcome.ok r) := by
  refine ⟨?_, ?_, ?_, ?_, ?_, ?_⟩
  · intro env origin hq
    simp [migrateCountries, hq]
  · intro env origin hq hb
    simp [migrateCountries, hq, hb]
  · intro env origin hq hb hp
    simp [migrateCountries, hq, hb, hp]
  · intro env origin hq hb hp hc
    simp [migrateCountries, hq, hb, hp, hc]
  · intro t env l hb
    simp [worker, hb]
  · intro t n envs origin assign order
    exact ⟨_, rfl⟩

/-- C10 witness: a failing origin query makes the country migration fatal. -/
theorem C10_witness :
    ((CountryEnv.mk false true true (fun _ => true) true).queryOk = false)
    ∧ migrateCountries (CountryEnv.mk false true true (fun _ => true) true) []
        = ProcessOutcome.fatal FatalError.queryError :=
  ⟨rfl,
    C10_country_setup_failures_fatal.1
      (CountryEnv.mk false true true (fun _ => true) true) [] rfl⟩

/-- C2: For every finite stream of city records distributed to n workers,
each stream position is received by exactly one worker; the sum of the
per-worker success counts equals the number of records of the stream whose
insert succeeded; and this sum is the same for every ordering of record
arrival at the relay and every distribution of records to workers, so the
pipeline itself drops nothing and counts nothing twice. -/
theorem C2_pipeline_conservation :
    (∀ (n : Nat) (assign : Nat → Fin n) (cities : List City) (i : Nat)
        (h : i < cities.length),
      ∃! w : Fin n, (i, cities.get ⟨i, h⟩) ∈ receivedPairs n assign w cities)
    ∧ (∀ (t : List CountryRef) (n : Nat) (execOk : City → Bool) (assign : Nat → Fin n)
        (cities : List City),
      totalWorkerCount t n execOk assign cities = cities.countP execOk)
    ∧ (∀ (t₁ t₂ : List CountryRef) (n₁ n₂ : Nat) (execOk : City → Bool)
        (assign₁ : Nat → Fin n₁) (assign₂ : Nat → Fin n₂) (cities₁ cities₂ : List City),
      cities₁.Perm cities₂ →
      totalWorkerCount t₁ n₁ execOk assign₁ cities₁
        = totalWorkerCount t₂ n₂ execOk assign₂ cities₂) := by
  refine ⟨?_, totalWorkerCount_eq_countP, ?_⟩
  · intro n assign cities i h
    refine ⟨assign i, (receivedPairs_mem_iff n assign cities i h (assign i)).mpr rfl, ?_⟩
    intro w hw
    exact ((receivedPairs_mem_iff n assign cities i h w).mp hw).symm
  · intro t₁ t₂ n₁ n₂ e a₁ a₂ c₁ c₂ hperm
    rw [totalWorkerCount_eq_countP, totalWorkerCount_eq_countP]
    exact hperm.countP_eq e

/-- C2 witness: a concrete two-record stream, distributed alternately to two
workers, and the same stream reversed and given entirely to one worker,
yield the same total success count; and position 0 is received by exactly
one of the two workers. -/
theorem C2_witness :
    (0 < ([City.mk 1 "Aa" "US" 10 20, City.mk 2 "Bb" "FR" 30 40] : List City).length)
    ∧ (∃! w : Fin 2,
      ((0 : Nat), City.mk 1 "Aa" "US" 10 20)
        ∈ receivedPairs 2 (fun i => ⟨i % 2, Nat.mod_lt i (by decide)⟩) w
            [City.mk 1 "Aa" "US" 10 20, City.mk 2 "Bb" "FR" 30 40])
    ∧ ([City.mk 1 "Aa" "US" 10 20, City.mk 2 "Bb" "FR" 30 40] : List City).Perm
        [City.mk 2 "Bb" "FR" 30 40, City.mk 1 "Aa" "US" 10 20]
    ∧ totalWorkerCount [] 2 (fun c => c.CountryISOCode == "US")
        (fun i => ⟨i % 2, Nat.mod_lt i (by decide)⟩)
        [City.mk 1 "Aa" "US" 10 20, City.mk 2 "Bb" "FR" 30 40]
      = totalWorkerCount [] 1 (fun c => c.CountryISOCode == "US")
        (fun _ => ⟨0, Nat.zero_lt_one⟩)
        [City.mk 2 "Bb" "FR" 30 40, City.mk 1 "Aa" "US" 10 20] :=
  ⟨by decide,
    C2_pipeline_conservation.1 2 (fun i => ⟨i % 2, Nat.mod_lt i (by decide)⟩)
      [City.mk 1 "Aa" "US" 10 20, City.mk 2 "Bb" "FR" 30 40] 0 (by decide),
    by decide,
    C2_pipeline_conservation.2.2 [] [] 2 1 (fun c => c.CountryISOCode == "US")
      (fun i => ⟨i % 2, Nat.mod_lt i (by decide)⟩) (fun _ => ⟨0, Nat.zero_lt_one⟩)
      [City.mk 1 "Aa" "US" 10 20, City.mk 2 "Bb" "FR" 30 40]
      [City.mk 2 "Bb" "FR" 30 40, City.mk 1 "Aa" "US" 10 20] (by decide)⟩

/-- C7: The coordinator of a city-migration run prints its completion notice
only after every one of the n workers has returned, and it always reaches
this terminal state regardless of worker success or failure: for every
worker-finish order (any permutation of the pool) the run returns ok, the
final trace event is the completion notice, every worker-return event
precedes it, and the completion notice occurs nowhere earlier in the
trace. -/
theorem C7_completion_after_join (queryOk : Bool) (t : List CountryRef) (n : Nat)
    (envs : Fin n → WorkerEnv) (origin : List (Option City)) (assign : Nat → Fin n)
    (order : List (Fin n)) (hq : queryOk = true)
    (hord : order.Perm (List.finRange n)) :
    ∃ r, migrateCitiesConcurrently queryOk t n envs origin assign order
        = ProcessOutcome.ok r
      ∧ r.trace.getLast? = some Event.completionPrinted
      ∧ (∀ w : Fin n, Event.workerReturned w.val ∈ r.trace.dropLast)
      ∧ (∀ e ∈ r.trace.dropLast, e ≠ Event.completionPrinted) := by
  subst hq
  refine ⟨_, rfl, ?_, ?_, ?_⟩
  · exact List.getLast?_concat _
  · intro w
    rw [List.dropLast_concat]
    exact List.mem_map.mpr ⟨w, hord.mem_iff.mpr (List.mem_finRange w), rfl⟩
  · intro e he
    rw [List.dropLast_concat] at he
    rcases List.mem_map.mp he with ⟨w, -, rfl⟩
    simp

/-- C7 witness: a one-worker run with the only possible finish order. -/
theorem C7_witness :
    (true = true)
    ∧ (([(0 : Fin 1)] : List (Fin 1)).Perm (List.finRange 1))
    ∧ ∃ r, migrateCitiesConcurrently true [] 1
          (fun _ => WorkerEnv.mk true true (fun _ => true) true) []
          (fun _ => ⟨0, Nat.zero_lt_one⟩) [(0 : Fin 1)]
        = ProcessOutcome.ok r
      ∧ r.trace.getLast? = some Event.completionPrinted
      ∧ (∀ w : Fin 1, Event.workerReturned w.val ∈ r.trace.dropLast)
      ∧ (∀ e ∈ r.trace.dropLast, e ≠ Event.completionPrinted) :=
  ⟨rfl, by decide,
    C7_completion_after_join true [] 1 (fun _ => WorkerEnv.mk true true (fun _ => true) true)
      [] (fun _ => ⟨0, Nat.zero_lt_one⟩) [(0 : Fin 1)] rfl (by decide)⟩

/-- Characterization of mainRun when setup succeeds and the argument count
is right: the outcome is decided by the selector string alone. -/
theorem mainRun_eq_dispatch (env : MainEnv) (args : List String)
    (hd : env.dotenvOk = true) (hs : env.sqliteOk = true) (hp : env.pgOk = true)
    (hlen : args.length = 2) (s : String) (hg : args[1]? = some s) :
    mainRun env args
      = (if s = "country" then ProcessOutcome.ok Selected.countryRun
         else if s = "city" then ProcessOutcome.ok Selected.cityRun
         else ProcessOutcome.fatal FatalError.invalidSelectorError) := by
  simp [mainRun, hd, hs, hp, hlen, hg]

/-- Characterization of mainRun on a wrong argument count: the usage error
is fatal. -/
theorem mainRun_usage (env : MainEnv) (args : List String)
    (hd : env.dotenvOk = true) (hlen : args.length ≠ 2) :
    mainRun env args = ProcessOutcome.fatal FatalError.usageError := by
  simp [mainRun, hd, hlen]

/-- C9: With the setup steps succeeding, the process dispatches on exactly
one selector argument: the country selector selects the country migration,
the city selector selects the concurrent city migration, a wrong number of
arguments terminates fatally with the usage error, and any other selector
value terminates fatally with the invalid-selector error; every fatal
outcome selects no migration, so nothing is migrated there. -/
theorem C9_selector_dispatch (env : MainEnv) (args : List String)
    (hd : env.dotenvOk = true) (hs : env.sqliteOk = true) (hp : env.pgOk = true) :
    (mainRun env args = ProcessOutcome.ok Selected.countryRun ↔
      args.length = 2 ∧ args[1]? = some "country")
    ∧ (mainRun env args = ProcessOutcome.ok Selected.cityRun ↔
      args.length = 2 ∧ args[1]? = some "city")
    ∧ (args.length ≠ 2 → mainRun env args = ProcessOutcome.fatal FatalError.usageError)
    ∧ (∀ s : String, args.length = 2 → args[1]? = some s → s ≠ "country" → s ≠ "city" →
      mainRun env args = ProcessOutcome.fatal FatalError.invalidSelectorError) := by
  refine ⟨?_, ?_, fun hlen => mainRun_usage env args hd hlen, ?_⟩
  · constructor
    · intro hmr
      by_cases hlen : args.length = 2
      · have h1 : 1 < args.length := by omega
        have hg := List.getElem?_eq_getElem h1
        rw [mainRun_eq_dispatch env args hd hs hp hlen _ hg] at hmr
        refine ⟨hlen, ?_⟩
        by_cases hc : args[1] = "country"
        · rw [hg, hc]
        · by_cases hc2 : args[1] = "city" <;> simp [hc, hc2] at hmr
      · rw [mainRun_usage env args hd hlen] at hmr
        simp at hmr
    · rintro ⟨hlen, hsome⟩
      have h1 : 1 < args.length := by omega
      have hg := List.getElem?_eq_getElem h1
      have hc : args[1] = "country" := by
        rw [hg] at hsome
        exact Option.some.inj hsome
      rw [mainRun_eq_dispatch env args hd hs hp hlen _ hg, hc]
      simp
  · constructor
    · intro hmr
      by_cases hlen : args.length = 2
      · have h1 : 1 < args.length := by omega
        have hg := List.getElem?_eq_getElem h1
        rw [mainRun_eq_dispatch env args hd hs hp hlen _ hg] at hmr
        refine ⟨hlen, ?_⟩
        by_cases hc2 : args[1] = "city"
        · rw [hg, hc2]
        · by_cases hc : args[1] = "country" <;> simp [hc, hc2] at hmr
      · rw [mainRun_usage env args hd hlen] at hmr
        simp at hmr
    · rintro ⟨hlen, hsome⟩
      have h1 : 1 < args.length := by omega
      have hg := List.getElem?_eq_getElem h1
      have hc : args[1] = "city" := by
        rw [hg] at hsome
        exact Option.some.inj hsome
      rw [mainRun_eq_dispatch env args hd hs hp hlen _ hg, hc]
      simp
  · intro s hlen hsome hnc hncity
    have h1 : 1 < args.length := by omega
    have hg := List.getElem?_eq_getElem h1
    have hcs : args[1] = s := by
      rw [hg] at hsome
      exact Option.some.inj hsome
    rw [mainRun_eq_dispatch env args hd hs hp hlen _ hg, hcs]
    simp [hnc, hncity]

/-- C9 witness: a single-argument call (no selector) is a fatal usage
error. -/
theorem C9_witness :
    ((MainEnv.mk true true true).dotenvOk = true)
    ∧ ((MainEnv.mk true true true).sqliteOk = true)
    ∧ ((MainEnv.mk true true true).pgOk = true)
    ∧ (["prog"] : List String).length ≠ 2
    ∧ mainRun (MainEnv.mk true true true) ["prog"]
        = ProcessOutcome.fatal FatalError.usageError :=
  ⟨rfl, rfl, rfl, by decide,
    (C9_selector_dispatch (MainEnv.mk true true true) ["prog"] rfl rfl rfl).2.2.1
      (by decide)⟩
